import Mathlib

/-!
Shallow embedding of `sharepoint.py`: a small SharePoint client library.

The module has two classes:

* `SharePoint` — a site client holding a bearer token, a status code, a domain
  and a single-slot folder-listing cache (`json_data`), with operations
  `download_file`, `bulk_download`, `upload_file`, `bulk_upload`.
* `SharePointObjectBuilder` — resolves a site name to an authenticated
  `SharePoint` via `config.ini` (`__call__`), and registers new credential
  records (`register_site`).

External effects (HTTP calls, local file writes, printing, writing
`config.ini`) are modelled as an explicit trace of `Effect` values, and the
responses of the outside world (HTTP responses, the local filesystem) as an
`Env` of response functions.  HTTP bodies (Python `bytes`/`str`) are carried
as `String`.  Folder-listing responses are modelled already parsed: the
server's JSON `{d: {results: [{Name: ...}, ...]}}` becomes a
`List FileEntry`; a parsed listing dict is truthy in Python, so the cache
check `if not self.json_data` is `Option.isNone` on the model.
-/

/-- One entry of a folder listing response (`self.json_data['d']['results']`);
only the `Name` field is consulted by the code. -/
structure FileEntry where
  Name : String
deriving DecidableEq, Repr

/-- The named tuple `Response(status_code, token, domain)` returned by
`SharePointObjectBuilder._authorize`. -/
structure AuthResponse where
  status_code : Nat
  token : Option String
  domain : String
deriving DecidableEq, Repr

/-- The named tuple `Configs(TENANT_ID, DOMAIN, CLIENT_ID, CLIENT_SECRET)`
built by `SharePointObjectBuilder._get_configs`. -/
structure Configs where
  TENANT_ID : String
  DOMAIN : String
  CLIENT_ID : String
  CLIENT_SECRET : String
deriving DecidableEq, Repr

/-- Python exceptions the module can raise. -/
inductive SPError where
  | fileNotFoundError (msg : String)
  | keyError (msg : String)
  | connectionRefusedError (status : Nat)
  | unboundLocalError (localName : String)
  | noOptionError (site key : String)
  | typeError (msg : String)
deriving DecidableEq, Repr

/-- Externally visible effects of a call, in order of occurrence.  HTTP
requests are recorded by the data that determines their URL and body rather
than by the URL string itself. -/
inductive Effect where
  | getListing (folder_path : String)
  | getFileContent (folder_path file_name : String)
  | postUpload (folder_path file_name body : String)
  | postTokenExchange (tenant_id client_id client_secret domain : String)
  | fileWrite (path content : String)
  | configWrite (defaults : List (String × String))
      (sections : List (String × List (String × String)))
  | print (s : String)
deriving DecidableEq, Repr

/-- Responses of the outside world.  Each function gives the response the
remote service (or local filesystem) would produce for the request with
those parameters.  Listing responses are modelled as well-formed parsed
listings (see module docstring). -/
structure Env where
  tokenExchange : String → String → String → String → Nat × Option String
  listing : String → List FileEntry
  fileContent : String → String → Nat × String
  uploadResponse : String → String → Nat × String
  is_file : String → Bool
  localContent : String → String

/-- Python `str(x)` for `x : Optional[str]` (an absent token renders as
`"None"` inside the f-string building the Authorization header). -/
def pyStrOfOpt : Option String → String
  | none => "None"
  | some s => s

/-- Python truthiness of an `Optional[str]` argument: `None` and `""` are
falsy. -/
def pyTruthy : Option String → Bool
  | none => false
  | some s => !(s == "")

/-- Split a character list at every occurrence of `c`. -/
def splitOnChar (c : Char) : List Char → List (List Char)
  | [] => [[]]
  | x :: xs =>
    match splitOnChar c xs with
    | [] => if x == c then [[], []] else [[x]]
    | y :: ys => if x == c then [] :: y :: ys else (x :: y) :: ys

/-- Join strings with a separator. -/
def joinWith (sep : String) : List String → String
  | [] => ""
  | [x] => x
  | x :: y :: ys => x ++ sep ++ joinWith sep (y :: ys)

/-- The non-empty slash-separated components of a path string. -/
def pathSegments (p : String) : List String :=
  ((splitOnChar (Char.ofNat 47) p.toList).map (fun l => String.mk l)).filter
    (fun s => !(s == ""))

/-- Whether a path string starts with a slash. -/
def startsWithSlash (p : String) : Bool :=
  match p.toList with
  | c :: _ => c == Char.ofNat 47
  | [] => false

/-- Whether a path string ends with a slash. -/
def endsWithSlash (p : String) : Bool :=
  match p.toList.reverse with
  | c :: _ => c == Char.ofNat 47
  | [] => false

/-- `pathlib.PurePath.name` for forward-slash paths: the last non-empty
component. -/
def pathName (p : String) : String :=
  ((pathSegments p).reverse.head?).getD ""

/-- `pathlib.PurePath.parent` rendered as a string, for forward-slash
paths. -/
def pathParent (p : String) : String :=
  let comps := pathSegments p
  if comps.length ≤ 1 then (if startsWithSlash p then "/" else ".")
  else (if startsWithSlash p then "/" else "") ++ joinWith "/" comps.dropLast

/-- `Path(a).joinpath(b)` rendered as a string (relative `b`). -/
def pathJoin (a b : String) : String :=
  if endsWithSlash a then a ++ b else a ++ "/" ++ b

/-- `pathlib.PurePath.stem`: the final component without its last suffix. -/
def pathStem (p : String) : String :=
  let n := pathName p
  let parts := (splitOnChar (Char.ofNat 46) n.toList).map (fun l => String.mk l)
  if parts.length ≤ 1 then n
  else if joinWith "." parts.dropLast == "" then n
  else joinWith "." parts.dropLast

/-- The `config.ini` contents as seen through `ConfigParser`: the implicit
`DEFAULT` section plus the named sections.  `ConfigParser`'s `optionxform`
lower-cases option names on read and write, so all keys are stored and
looked up lower-case here. -/
structure ConfigFile where
  defaults : List (String × String)
  sections : List (String × List (String × String))
deriving DecidableEq, Repr

/-- `site in self._parser`: membership of a section name; the implicit
`DEFAULT` section always tests as present. -/
def cfgHasSite (cfg : ConfigFile) (site : String) : Bool :=
  site == "DEFAULT" || (cfg.sections.lookup site).isSome

/-- `self._parser.get(site, KEY)` with `ConfigParser`'s fallback to the
`DEFAULT` section; a missing option (`NoOptionError` / `NoSectionError`)
collapses to `none`. -/
def cfgGet (cfg : ConfigFile) (site key : String) : Option String :=
  if site == "DEFAULT" then cfg.defaults.lookup key
  else
    match cfg.sections.lookup site with
    | some sec => (sec.lookup key).orElse (fun _ => cfg.defaults.lookup key)
    | none => none

/-- `self._parser[site] = sec`: replace the section (assignment to the
`DEFAULT` name replaces the defaults). -/
def replaceOrAppend (sections : List (String × List (String × String)))
    (site : String) (sec : List (String × String)) :
    List (String × List (String × String)) :=
  match sections with
  | [] => [(site, sec)]
  | (k, v) :: rest =>
    if k == site then (k, sec) :: rest else (k, v) :: replaceOrAppend rest site sec

/-- Write a section into the parser state (`self._parser[site] = {...}`). -/
def setSection (cfg : ConfigFile) (site : String) (sec : List (String × String)) :
    ConfigFile :=
  if site == "DEFAULT" then { cfg with defaults := sec }
  else { cfg with sections := replaceOrAppend cfg.sections site sec }

/-- The record persisted for `site` in a (possibly absent) store. -/
def persistedSection (store : Option ConfigFile) (site : String) :
    Option (List (String × String)) :=
  match store with
  | none => none
  | some cfg => if site == "DEFAULT" then some cfg.defaults else cfg.sections.lookup site

/-- The `SharePoint` instance state: constructor fields plus the headers set
by `_set_headers` and the single-slot folder-listing cache `json_data`
(initialised to `None` by `_set_headers`). -/
structure SharePoint where
  site : String
  access_token : Option String
  status_code : Nat
  domain : String
  headers : List (String × String)
  json_data : Option (List FileEntry)
deriving DecidableEq, Repr

/-- `SharePoint._set_headers`: the headers dict built from the token. -/
def set_headers (token : Option String) : List (String × String) :=
  [("Accept", "application/json; odata=verbose"),
   ("Content-Type", "application/json; odata=verbose"),
   ("Authorization", "Bearer " ++ pyStrOfOpt token)]

/-- `SharePoint.__init__(site, response)` followed by `_set_headers`. -/
def SharePoint.init (site : String) (response : AuthResponse) : SharePoint :=
  { site := site
    access_token := response.token
    status_code := response.status_code
    domain := response.domain
    headers := set_headers response.token
    json_data := none }

/-- `SharePoint.connection_status`. -/
def connection_status (sp : SharePoint) : Nat :=
  sp.status_code

/-- `SharePoint._get_metadata(folder_path)`: GET the folder listing and store
the parsed body in the cache slot. -/
def get_metadata (sp : SharePoint) (env : Env) (folder_path : String) :
    SharePoint × List Effect :=
  ({ sp with json_data := some (env.listing folder_path) },
   [Effect.getListing folder_path])

/-- Result of `SharePoint.download_file`: raised error or saved path, the
updated instance state, and the effect trace. -/
structure DownloadResult where
  result : Except SPError String
  state : SharePoint
  trace : List Effect
deriving Repr

/-- The body of `download_file` after the cache check: scan
`self.json_data['d']['results']` (= `entries`) for an exact `Name` match;
on a match GET the file content and write every chunk of the body to
`path_to_save/file_name`; on no match raise `FileNotFoundError`. -/
def downloadFromListing (sp : SharePoint) (env : Env)
    (folder_path file_name path_to_save : String)
    (entries : List FileEntry) (tr0 : List Effect) : DownloadResult :=
  match entries.find? (fun k => k.Name == file_name) with
  | some _ =>
    let r := env.fileContent folder_path file_name
    let file_save_path := pathJoin path_to_save file_name
    { result := Except.ok file_save_path
      state := sp
      trace := tr0 ++
        [Effect.getFileContent folder_path file_name,
         Effect.fileWrite file_save_path r.2,
         Effect.print ("\nStatus: " ++ toString r.1 ++ ", File: " ++ file_name
           ++ " downloaded to " ++ pathParent file_save_path)] }
  | none =>
    { result := Except.error (SPError.fileNotFoundError
        (file_name ++ " not found at: " ++ folder_path))
      state := sp
      trace := tr0 }

/-- `SharePoint.download_file(folder_path, file_name, path_to_save)`.
`if not self.json_data: self._get_metadata(folder_path)` — only an unset
cache (`None`) triggers the listing fetch, because a parsed listing dict is
truthy even when its `results` list is empty. -/
def download_file (sp : SharePoint) (env : Env)
    (folder_path file_name path_to_save : String) : DownloadResult :=
  match sp.json_data with
  | none =>
    let primed := get_metadata sp env folder_path
    downloadFromListing primed.1 env folder_path file_name path_to_save
      (env.listing folder_path) primed.2
  | some entries =>
    downloadFromListing sp env folder_path file_name path_to_save entries []

/-- A Python object that may be passed where a list is expected. -/
inductive PyObj where
  | pylist (xs : List String)
  | pystr (s : String)
  | pyint (n : Int)
  | pynone
deriving DecidableEq, Repr

/-- `isinstance(files, list)`. -/
def pyIsList : PyObj → Bool
  | PyObj.pylist _ => true
  | _ => false

/-- The list comprehension in `bulk_download`: call `download_file` for each
name in order, propagating the first raised error (fail-fast). -/
def downloadMany (sp : SharePoint) (env : Env) (folder_path path_to_save : String)
    (files : List String) : Except SPError (List String) × SharePoint × List Effect :=
  match files with
  | [] => (Except.ok [], sp, [])
  | f :: rest =>
    let r := download_file sp env folder_path f path_to_save
    match r.result with
    | Except.error e => (Except.error e, r.state, r.trace)
    | Except.ok p =>
      match downloadMany r.state env folder_path path_to_save rest with
      | (Except.error e, sp2, tr2) => (Except.error e, sp2, r.trace ++ tr2)
      | (Except.ok paths, sp2, tr2) => (Except.ok (p :: paths), sp2, r.trace ++ tr2)

/-- Result of `SharePoint.bulk_download`: raised error or the
stem-to-saved-path dict (modelled as a list of pairs in insertion order),
plus state and trace. -/
structure BulkDownloadResult where
  result : Except SPError (List (String × String))
  state : SharePoint
  trace : List Effect
deriving Repr

/-- `SharePoint.bulk_download(folder_path, path_to_save, files)`.  The
`isinstance(files, list)` guard has no `else`: when `files` is not a list
the trailing `return path_dict` reads a never-assigned local and Python
raises `UnboundLocalError`, with no download attempted. -/
def bulk_download (sp : SharePoint) (env : Env)
    (folder_path path_to_save : String) (files : PyObj) : BulkDownloadResult :=
  match files with
  | PyObj.pylist xs =>
    match downloadMany sp env folder_path path_to_save xs with
    | (Except.error e, sp2, tr) => { result := Except.error e, state := sp2, trace := tr }
    | (Except.ok paths, sp2, tr) =>
      { result := Except.ok (paths.map (fun p => (pathStem p, p)))
        state := sp2
        trace := tr }
  | _ => { result := Except.error (SPError.unboundLocalError "path_dict")
           state := sp
           trace := [] }

/-- `SharePoint.upload_file(folder_path, absolute_filepath)`: if the local
file exists, read it and POST it to the folder's `Files/add` endpoint,
printing the outcome whatever the status code (no raise on non-200);
otherwise raise `FileNotFoundError` without any request. -/
def upload_file (_sp : SharePoint) (env : Env)
    (folder_path absolute_filepath : String) : Except SPError Unit × List Effect :=
  if env.is_file absolute_filepath then
    let file_buffer := env.localContent absolute_filepath
    let fname := pathName absolute_filepath
    let r := env.uploadResponse folder_path fname
    if r.1 == 200 then
      (Except.ok (),
       [Effect.postUpload folder_path fname file_buffer,
        Effect.print ("\nStatus: " ++ toString r.1 ++ ", File: " ++ fname
          ++ " uploaded to " ++ folder_path)])
    else
      (Except.ok (),
       [Effect.postUpload folder_path fname file_buffer,
        Effect.print ("\nUpload attempt response: " ++ toString r.1),
        Effect.print ("\n Upload response content: " ++ r.2)])
  else
    (Except.error (SPError.fileNotFoundError
      (pathName absolute_filepath ++ " not found at: " ++ pathParent absolute_filepath)),
     [])

/-- `SharePoint.bulk_upload(folder_path, files_to_upload)`: sequential
`upload_file` calls; a raised exception (only possible for a missing local
file) propagates and stops the loop. -/
def bulk_upload (sp : SharePoint) (env : Env) (folder_path : String)
    (files_to_upload : List String) : Except SPError Unit × List Effect :=
  match files_to_upload with
  | [] => (Except.ok (), [])
  | f :: rest =>
    match upload_file sp env folder_path f with
    | (Except.error e, tr) => (Except.error e, tr)
    | (Except.ok _, tr) =>
      let r := bulk_upload sp env folder_path rest
      (r.1, tr ++ r.2)

/-- `SharePointObjectBuilder._get_configs(site)`: four `parser.get` calls in
source order; a missing option raises (`NoOptionError`). -/
def get_configs (cfg : ConfigFile) (site : String) : Except SPError Configs :=
  match cfgGet cfg site "tenant_id" with
  | none => Except.error (SPError.noOptionError site "tenant_id")
  | some t =>
    match cfgGet cfg site "domain" with
    | none => Except.error (SPError.noOptionError site "domain")
    | some d =>
      match cfgGet cfg site "client_id" with
      | none => Except.error (SPError.noOptionError site "client_id")
      | some ci =>
        match cfgGet cfg site "client_secret" with
        | none => Except.error (SPError.noOptionError site "client_secret")
        | some cs => Except.ok { TENANT_ID := t, DOMAIN := d, CLIENT_ID := ci,
                                 CLIENT_SECRET := cs }

/-- `SharePointObjectBuilder._authorize(site)`: read the configs, POST the
client-credentials form to the token endpoint, and return
`Response(res.status_code, res.json().get('access_token'), DOMAIN)`. -/
def authorize (env : Env) (cfg : ConfigFile) (site : String) :
    Except SPError AuthResponse × List Effect :=
  match get_configs cfg site with
  | Except.error e => (Except.error e, [])
  | Except.ok c =>
    let r := env.tokenExchange c.TENANT_ID c.CLIENT_ID c.CLIENT_SECRET c.DOMAIN
    (Except.ok { status_code := r.1, token := r.2, domain := c.DOMAIN },
     [Effect.postTokenExchange c.TENANT_ID c.CLIENT_ID c.CLIENT_SECRET c.DOMAIN])

/-- `SharePointObjectBuilder._check_site_in_config(site)` (including the
`_read_config_file` call): a missing `config.ini` raises
`FileNotFoundError`; a missing section raises `KeyError`. -/
def check_site_in_config (env : Env) (store : Option ConfigFile) (site : String) :
    Except SPError AuthResponse × List Effect :=
  match store with
  | none => (Except.error (SPError.fileNotFoundError "Configuration file not found"), [])
  | some cfg =>
    if cfgHasSite cfg site then authorize env cfg site
    else (Except.error (SPError.keyError ("Configuration not found for " ++ site)), [])

/-- `SharePointObjectBuilder.__call__(site)` — the `resolve` operation.
`if site:` — a falsy (empty) site name skips the whole body and the method
returns `None`.  On a 200 exchange a `SharePoint` is constructed; otherwise
`ConnectionRefusedError` is raised with the status code. -/
def builderCall (env : Env) (store : Option ConfigFile) (site : String) :
    Except SPError (Option SharePoint) × List Effect :=
  if site == "" then (Except.ok none, [])
  else
    match check_site_in_config env store site with
    | (Except.error e, tr) => (Except.error e, tr)
    | (Except.ok response, tr) =>
      if response.status_code == 200 then
        (Except.ok (some (SharePoint.init site response)), tr)
      else
        (Except.error (SPError.connectionRefusedError response.status_code), tr)

/-- Result of `register_site`: raised error or returned object, the store as
persisted on disk afterwards, and the effect trace. -/
structure RegisterResult where
  result : Except SPError (Option SharePoint)
  store : Option ConfigFile
  trace : List Effect

/-- `SharePointObjectBuilder.register_site(...)`: `_read_config_file` first
(raising `FileNotFoundError` if `config.ini` is absent, before any write);
then build the section dict — `domain`/`tenant_id` are added only when
`if domain and tenant_id`, i.e. both truthy — write the file, and resolve
the site via `__call__`. -/
def register_site (env : Env) (store : Option ConfigFile)
    (site client_id client_secret : String) (domain tenant_id : Option String) :
    RegisterResult :=
  match store with
  | none =>
    { result := Except.error (SPError.fileNotFoundError "Configuration file not found")
      store := none
      trace := [] }
  | some cfg =>
    let base := [("client_id", client_id), ("client_secret", client_secret)]
    let sec := if pyTruthy domain && pyTruthy tenant_id then
        base ++ [("domain", domain.getD ""), ("tenant_id", tenant_id.getD "")]
      else base
    let cfg2 := setSection cfg site sec
    let r := builderCall env (some cfg2) site
    { result := r.1
      store := some cfg2
      trace := Effect.configWrite cfg2.defaults cfg2.sections :: r.2 }

/-- The listing `download_file` actually scans: the cached one when the
cache slot is set, the freshly fetched listing for `folder_path` when it is
empty. -/
def effectiveListing (sp : SharePoint) (env : Env) (folder_path : String) :
    List FileEntry :=
  match sp.json_data with
  | none => env.listing folder_path
  | some l => l

/-- The status code of the token exchange a call performed, read off its
effect trace (the first `postTokenExchange` request, answered by `env`). -/
def traceExchangeStatus (env : Env) (tr : List Effect) : Option Nat :=
  tr.findSome? (fun e =>
    match e with
    | Effect.postTokenExchange t ci cs d => some (env.tokenExchange t ci cs d).1
    | _ => none)

/-- A demo credential store: internal-tenant defaults plus one registered
site, as the documented `config.ini` layout. -/
def cfgDemo : ConfigFile :=
  { defaults := [("tenant_id", "t0"), ("domain", "internal.example")]
    sections := [("site_1", [("client_id", "abc"), ("client_secret", "xyz")])] }

/-- A demo environment where every exchange succeeds and every request gets
a 200 with fixed bodies. -/
def envOK : Env :=
  { tokenExchange := fun _ _ _ _ => (200, some "tok")
    listing := fun _ => [{ Name := "a.txt" }]
    fileContent := fun _ _ => (200, "data")
    uploadResponse := fun _ _ => (200, "")
    is_file := fun _ => true
    localContent := fun _ => "bytes" }

/-- Environment whose token endpoint answers 500 with no token. -/
def env500 : Env :=
  { envOK with tokenExchange := fun _ _ _ _ => (500, none) }

/-- Environment whose folder listings are all empty. -/
def envEmptyListing : Env :=
  { envOK with listing := fun _ => [] }

/-- Environment whose file-content endpoint answers 404 with an error body. -/
def env404 : Env :=
  { envOK with fileContent := fun _ _ => (404, "errbody") }

/-- Environment whose upload endpoint answers 500. -/
def envU500 : Env :=
  { envOK with uploadResponse := fun _ _ => (500, "boom") }

/-- Environment where no local file exists. -/
def envNoFile : Env :=
  { envOK with is_file := fun _ => false }

/-- A demo client instance as constructed from a successful exchange. -/
def spDemo : SharePoint :=
  SharePoint.init "site_1" { status_code := 200, token := some "tok",
                             domain := "internal.example" }

/-- The demo client with the folder-listing cache already holding a
listing. -/
def spCached : SharePoint :=
  { spDemo with json_data := some [{ Name := "a.txt" }] }

/-- Claim C6: for every `upload_file(folder_path, absolute_filepath)` call
where `absolute_filepath` does not name an existing local file, the call
fails with `FileNotFoundError` and issues no network call. -/
theorem claim_C6 (sp : SharePoint) (env : Env) (folder_path absolute_filepath : String)
    (h : env.is_file absolute_filepath = false) :
    upload_file sp env folder_path absolute_filepath =
      (Except.error (SPError.fileNotFoundError
        (pathName absolute_filepath ++ " not found at: " ++ pathParent absolute_filepath)),
       []) := by
  simp [upload_file, h]

/-- Witness for C6 at a concrete missing local file. -/
theorem claim_C6_witness :
    upload_file spDemo envNoFile "Shared Documents" "/tmp/a.txt" =
      (Except.error (SPError.fileNotFoundError "a.txt not found at: /tmp"), []) := by
  have h := claim_C6 spDemo envNoFile "Shared Documents" "/tmp/a.txt" rfl
  exact h.trans (by rfl)

/-- Claim C9: `register_site` with the credential store absent fails with
`FileNotFoundError` before writing anything: the store is unchanged and no
effect (in particular no `configWrite`) is produced. -/
theorem claim_C9 (env : Env) (site client_id client_secret : String)
    (domain tenant_id : Option String) :
    register_site env none site client_id client_secret domain tenant_id =
      { result := Except.error (SPError.fileNotFoundError "Configuration file not found")
        store := none
        trace := [] } := by
  rfl

/-- Claim C3 (evaluation at the failing input): `bulk_download` with a
non-list `files` argument raises `UnboundLocalError` over the unassigned
`path_dict` local — not `TypeError`/`InvalidArgument` — and performs no
downloads. -/
theorem claim_C3 :
    (bulk_download spDemo envOK "Shared Documents" "/tmp" (PyObj.pyint 3)).result =
      Except.error (SPError.unboundLocalError "path_dict")
    ∧ (bulk_download spDemo envOK "Shared Documents" "/tmp" (PyObj.pyint 3)).trace = []
    ∧ ∀ msg, (bulk_download spDemo envOK "Shared Documents" "/tmp" (PyObj.pyint 3)).result ≠
        Except.error (SPError.typeError msg) := by
  refine ⟨rfl, rfl, ?_⟩
  intro msg h
  rw [show (bulk_download spDemo envOK "Shared Documents" "/tmp" (PyObj.pyint 3)).result =
      Except.error (SPError.unboundLocalError "path_dict") from rfl] at h
  simp at h

/-- Claim C10: whenever `file_name` matches an entry of the listing
`download_file` scans, the local file at `path_to_save/file_name` is
written with the body of the file-content GET response and that path is
returned — with no condition whatsoever on the HTTP status code of that
response. -/
theorem claim_C10 (sp : SharePoint) (env : Env)
    (folder_path file_name path_to_save : String)
    (h : ((effectiveListing sp env folder_path).find?
        (fun k => k.Name == file_name)).isSome = true) :
    (download_file sp env folder_path file_name path_to_save).result =
      Except.ok (pathJoin path_to_save file_name)
    ∧ Effect.getFileContent folder_path file_name ∈
        (download_file sp env folder_path file_name path_to_save).trace
    ∧ Effect.fileWrite (pathJoin path_to_save file_name)
        (env.fileContent folder_path file_name).2 ∈
        (download_file sp env folder_path file_name path_to_save).trace := by
  obtain ⟨e, he⟩ := Option.isSome_iff_exists.mp h
  cases hjd : sp.json_data with
  | none =>
    have he' : (env.listing folder_path).find? (fun k => k.Name == file_name) = some e := by
      simpa [effectiveListing, hjd] using he
    simp [download_file, hjd, get_metadata, downloadFromListing, he']
  | some l =>
    have he' : l.find? (fun k => k.Name == file_name) = some e := by
      simpa [effectiveListing, hjd] using he
    simp [download_file, hjd, downloadFromListing, he']

/-- Witness for C10: a 404 content response still yields a saved path and a
local file holding the error body. -/
theorem claim_C10_witness :
    (download_file spDemo env404 "Docs" "a.txt" "/tmp").result = Except.ok "/tmp/a.txt"
    ∧ Effect.fileWrite "/tmp/a.txt" "errbody" ∈
        (download_file spDemo env404 "Docs" "a.txt" "/tmp").trace := by
  have h := claim_C10 spDemo env404 "Docs" "a.txt" "/tmp" rfl
  exact ⟨h.1, h.2.2⟩

/-- Counterexample to claim C5 as stated: with the single-slot cache
holding another folder's listing, `download_file` for a file name absent
from the target folder's own listing does not raise `FileNotFoundError` —
it succeeds, issues the content GET and writes a local file. -/
theorem claim_C5_counterexample :
    (envEmptyListing.listing "B").find? (fun k => k.Name == "a.txt") = none
    ∧ (download_file spCached envEmptyListing "B" "a.txt" "/tmp").result =
        Except.ok "/tmp/a.txt"
    ∧ Effect.getFileContent "B" "a.txt" ∈
        (download_file spCached envEmptyListing "B" "a.txt" "/tmp").trace
    ∧ Effect.fileWrite "/tmp/a.txt" "data" ∈
        (download_file spCached envEmptyListing "B" "a.txt" "/tmp").trace := by
  refine ⟨rfl, rfl, ?_, ?_⟩ <;> decide

/-- Claim C5 (amended): for every `download_file` call where no entry of
the listing the call actually scans — the cached listing when the cache is
non-empty, the freshly fetched listing for `folder_path` otherwise — has
`Name` equal to `file_name`, the call fails with `FileNotFoundError` naming
the file and folder, issues no file-content request, and creates no local
file. -/
theorem claim_C5 (sp : SharePoint) (env : Env)
    (folder_path file_name path_to_save : String)
    (h : (effectiveListing sp env folder_path).find?
        (fun k => k.Name == file_name) = none) :
    (download_file sp env folder_path file_name path_to_save).result =
      Except.error (SPError.fileNotFoundError
        (file_name ++ " not found at: " ++ folder_path))
    ∧ (∀ f n, Effect.getFileContent f n ∉
        (download_file sp env folder_path file_name path_to_save).trace)
    ∧ (∀ p c, Effect.fileWrite p c ∉
        (download_file sp env folder_path file_name path_to_save).trace) := by
  cases hjd : sp.json_data with
  | none =>
    have h' : (env.listing folder_path).find? (fun k => k.Name == file_name) = none := by
      simpa [effectiveListing, hjd] using h
    simp [download_file, hjd, get_metadata, downloadFromListing, h']
  | some l =>
    have h' : l.find? (fun k => k.Name == file_name) = none := by
      simpa [effectiveListing, hjd] using h
    simp [download_file, hjd, downloadFromListing, h']

/-- Witness for C5 (amended) at a concrete absent file name. -/
theorem claim_C5_witness :
    (download_file spDemo envOK "Docs" "missing.txt" "/tmp").result =
      Except.error (SPError.fileNotFoundError "missing.txt not found at: Docs") :=
  (claim_C5 spDemo envOK "Docs" "missing.txt" "/tmp" rfl).1

/-- Claim C4: on a client whose folder-listing cache is non-empty,
`download_file` issues no metadata fetch (whatever folder the cached
listing came from), leaves the cache as it was, and resolves the file-name
lookup against the cached listing; conversely a metadata fetch appears in
the trace only when the cache was empty. -/
theorem claim_C4 (sp : SharePoint) (env : Env)
    (folder_path file_name path_to_save : String) :
    (∀ l, sp.json_data = some l →
      (∀ p, Effect.getListing p ∉
          (download_file sp env folder_path file_name path_to_save).trace)
      ∧ (download_file sp env folder_path file_name path_to_save).state.json_data = some l
      ∧ ((l.find? (fun k => k.Name == file_name)).isSome = true →
          (download_file sp env folder_path file_name path_to_save).result =
            Except.ok (pathJoin path_to_save file_name))
      ∧ (l.find? (fun k => k.Name == file_name) = none →
          (download_file sp env folder_path file_name path_to_save).result =
            Except.error (SPError.fileNotFoundError
              (file_name ++ " not found at: " ++ folder_path))))
    ∧ ((∃ p, Effect.getListing p ∈
          (download_file sp env folder_path file_name path_to_save).trace) →
        sp.json_data = none) := by
  constructor
  · intro l hl
    refine ⟨?_, ?_, ?_, ?_⟩
    · intro p
      cases hf : l.find? (fun k => k.Name == file_name) <;>
        simp [download_file, hl, downloadFromListing, hf]
    · cases hf : l.find? (fun k => k.Name == file_name) <;>
        simp [download_file, hl, downloadFromListing, hf]
    · intro hs
      obtain ⟨e, he⟩ := Option.isSome_iff_exists.mp hs
      simp [download_file, hl, downloadFromListing, he]
    · intro hn
      simp [download_file, hl, downloadFromListing, hn]
  · intro ⟨p, hp⟩
    cases hjd : sp.json_data with
    | none => rfl
    | some l =>
      exfalso
      cases hf : l.find? (fun k => k.Name == file_name) <;>
        simp [download_file, hjd, downloadFromListing, hf] at hp

/-- Witness for C4: a warm cache from another folder is used as-is, with no
listing fetch issued. -/
theorem claim_C4_witness :
    (∀ p, Effect.getListing p ∉
        (download_file spCached envEmptyListing "Other" "a.txt" "/save").trace)
    ∧ (download_file spCached envEmptyListing "Other" "a.txt" "/save").result =
        Except.ok "/save/a.txt" := by
  have h := (claim_C4 spCached envEmptyListing "Other" "a.txt" "/save").1
    [{ Name := "a.txt" }] rfl
  exact ⟨h.1, h.2.2.1 rfl⟩

/-- Looking up the section just written by `replaceOrAppend` yields exactly
that section. -/
theorem lookup_replaceOrAppend (sections : List (String × List (String × String)))
    (site : String) (sec : List (String × String)) :
    (replaceOrAppend sections site sec).lookup site = some sec := by
  induction sections with
  | nil => simp [replaceOrAppend, List.lookup]
  | cons kv rest ih =>
    obtain ⟨k, v⟩ := kv
    by_cases hk : k = site
    · subst hk
      simp [replaceOrAppend, List.lookup]
    · have hk1 : (k == site) = false := beq_eq_false_iff_ne.mpr hk
      have hk2 : (site == k) = false := beq_eq_false_iff_ne.mpr (Ne.symm hk)
      simpa [replaceOrAppend, hk1, hk2, List.lookup] using ih

/-- The record persisted for `site` right after `self._parser[site] = sec`
is `sec` itself. -/
theorem persistedSection_setSection (cfg : ConfigFile) (site : String)
    (sec : List (String × String)) :
    persistedSection (some (setSection cfg site sec)) site = some sec := by
  by_cases h : site == "DEFAULT"
  · simp [persistedSection, setSection, h]
  · simp [persistedSection, setSection, h, lookup_replaceOrAppend]

/-- Claim C7: `register_site` persists the `domain`/`tenant_id` overrides
only when both are supplied (truthy); with one or neither supplied, the
persisted record for the site holds exactly `client_id` and
`client_secret`. -/
theorem claim_C7 (env : Env) (cfg : ConfigFile)
    (site client_id client_secret : String) (domain tenant_id : Option String) :
    ((domain = none ∨ tenant_id = none) →
      persistedSection
        (register_site env (some cfg) site client_id client_secret domain tenant_id).store
        site = some [("client_id", client_id), ("client_secret", client_secret)])
    ∧ (∀ sec, persistedSection
        (register_site env (some cfg) site client_id client_secret domain tenant_id).store
        site = some sec →
        ((sec.lookup "domain").isSome = true ∨ (sec.lookup "tenant_id").isSome = true) →
        domain.isSome = true ∧ tenant_id.isSome = true) := by
  constructor
  · intro hone
    have hfalse : (pyTruthy domain && pyTruthy tenant_id) = false := by
      rcases hone with h | h <;> simp [h, pyTruthy]
    simp [register_site, hfalse, persistedSection_setSection]
  · intro sec hsec hkeys
    by_cases hboth : (pyTruthy domain && pyTruthy tenant_id) = true
    · obtain ⟨hd, ht⟩ := Bool.and_eq_true_iff.mp hboth
      cases domain with
      | none => simp [pyTruthy] at hd
      | some d =>
        cases tenant_id with
        | none => simp [pyTruthy] at ht
        | some t => exact ⟨rfl, rfl⟩
    · exfalso
      have hfalse : (pyTruthy domain && pyTruthy tenant_id) = false := by
        simpa using hboth
      rw [show (register_site env (some cfg) site client_id client_secret domain
            tenant_id).store = some (setSection cfg site
            [("client_id", client_id), ("client_secret", client_secret)]) by
          simp [register_site, hfalse]] at hsec
      rw [persistedSection_setSection] at hsec
      have hsec' : sec = [("client_id", client_id), ("client_secret", client_secret)] := by
        exact (Option.some.injEq _ _ ▸ hsec).symm ▸ rfl
      subst hsec'
      rcases hkeys with h | h <;> simp [List.lookup] at h

/-- Witness for C7: the spec's scenario — registering with only
`client_id`/`client_secret` persists a record with exactly those two
fields. -/
theorem claim_C7_witness :
    persistedSection
      (register_site envOK (some cfgDemo) "site_2" "abc" "xyz" none none).store
      "site_2" = some [("client_id", "abc"), ("client_secret", "xyz")] :=
  (claim_C7 envOK cfgDemo "site_2" "abc" "xyz" none none).1 (Or.inl rfl)

/-- For an existing local file, `upload_file` never raises: it issues the
POST and, on a non-200 status, prints the failure report instead of
raising. -/
theorem upload_file_exists (sp : SharePoint) (env : Env) (folder_path f : String)
    (hf : env.is_file f = true) :
    (upload_file sp env folder_path f).1 = Except.ok ()
    ∧ Effect.postUpload folder_path (pathName f) (env.localContent f) ∈
        (upload_file sp env folder_path f).2
    ∧ ((env.uploadResponse folder_path (pathName f)).1 ≠ 200 →
        Effect.print ("\nUpload attempt response: " ++
            toString (env.uploadResponse folder_path (pathName f)).1) ∈
          (upload_file sp env folder_path f).2) := by
  by_cases hst : (env.uploadResponse folder_path (pathName f)).1 = 200
  · refine ⟨?_, ?_, ?_⟩ <;> simp [upload_file, hf, hst]
  · have hst' : ((env.uploadResponse folder_path (pathName f)).1 == 200) = false :=
      beq_eq_false_iff_ne.mpr hst
    refine ⟨?_, ?_, ?_⟩ <;> simp [upload_file, hf, hst']

/-- Claim C8: `bulk_upload` over files that all exist locally never raises,
whatever status codes the remote side answers: every file in the list is
POSTed (so every file after a non-200 failure is still attempted) and each
non-200 response is reported by a printed line. -/
theorem claim_C8 (sp : SharePoint) (env : Env) (folder_path : String)
    (files : List String) (h : ∀ f ∈ files, env.is_file f = true) :
    (bulk_upload sp env folder_path files).1 = Except.ok ()
    ∧ (∀ f ∈ files, Effect.postUpload folder_path (pathName f) (env.localContent f) ∈
        (bulk_upload sp env folder_path files).2)
    ∧ (∀ f ∈ files, (env.uploadResponse folder_path (pathName f)).1 ≠ 200 →
        Effect.print ("\nUpload attempt response: " ++
            toString (env.uploadResponse folder_path (pathName f)).1) ∈
          (bulk_upload sp env folder_path files).2) := by
  induction files with
  | nil => exact ⟨rfl, by simp, by simp⟩
  | cons f rest ih =>
    have hf : env.is_file f = true := h f (List.mem_cons_self f rest)
    have hrest : ∀ g ∈ rest, env.is_file g = true :=
      fun g hg => h g (List.mem_cons_of_mem f hg)
    obtain ⟨ihr, ihm, ihp⟩ := ih hrest
    obtain ⟨hok, hm, hp⟩ := upload_file_exists sp env folder_path f hf
    have hred : bulk_upload sp env folder_path (f :: rest) =
        ((bulk_upload sp env folder_path rest).1,
         (upload_file sp env folder_path f).2 ++ (bulk_upload sp env folder_path rest).2) := by
      rw [bulk_upload]
      obtain ⟨r1, r2⟩ : ∃ a b, upload_file sp env folder_path f = (a, b) :=
        ⟨_, _, rfl⟩
      rcases hu : upload_file sp env folder_path f with ⟨ru, tru⟩
      rw [hu] at hok
      simp at hok
      subst hok
      simp [hu]
    refine ⟨?_, ?_, ?_⟩
    · rw [hred]; exact ihr
    · intro g hg
      rw [hred]
      rcases List.mem_cons.mp hg with hgf | hgr
      · subst hgf
        exact List.mem_append_left _ hm
      · exact List.mem_append_right _ (ihm g hgr)
    · intro g hg hne
      rw [hred]
      rcases List.mem_cons.mp hg with hgf | hgr
      · subst hgf
        exact List.mem_append_left _ (hp hne)
      · exact List.mem_append_right _ (ihp g hgr hne)

/-- Witness for C8: with a remote answering 500 to every upload, both files
of a two-file batch are POSTed and the call returns without raising. -/
theorem claim_C8_witness :
    (bulk_upload spDemo envU500 "Docs" ["/a/x.txt", "/a/y.txt"]).1 = Except.ok ()
    ∧ Effect.postUpload "Docs" "y.txt" "bytes" ∈
        (bulk_upload spDemo envU500 "Docs" ["/a/x.txt", "/a/y.txt"]).2 := by
  have h := claim_C8 spDemo envU500 "Docs" ["/a/x.txt", "/a/y.txt"]
    (by intro f _; rfl)
  exact ⟨h.1, h.2.1 "/a/y.txt" (by decide)⟩

/-- Counterexample to claim C2 as stated: `resolve("")` with the credential
store absent does not fail with `NotFoundError` (nor any error) — the
`if site:` guard makes `__call__` silently return `None` without ever
touching the store. -/
theorem claim_C2_counterexample :
    (builderCall envOK none "").1 = Except.ok none
    ∧ ∀ e : SPError, (builderCall envOK none "").1 ≠ Except.error e := by
  refine ⟨rfl, ?_⟩
  intro e h
  rw [show (builderCall envOK none "").1 = Except.ok none from rfl] at h
  simp at h

/-- Claim C2 (amended): for every `resolve(site_name)` call with a
non-empty `site_name` other than the parser's implicit `DEFAULT` section
name: if the store is absent the call fails with `FileNotFoundError`, and
if the store exists but has no section for `site_name` it fails with
`KeyError`; in both cases no request is issued and no `SharePoint` client
is constructed. -/
theorem claim_C2 (env : Env) (site : String) (cfg : ConfigFile)
    (h1 : site ≠ "") (h2 : site ≠ "DEFAULT") :
    builderCall env none site =
      (Except.error (SPError.fileNotFoundError "Configuration file not found"), [])
    ∧ (cfg.sections.lookup site = none →
        builderCall env (some cfg) site =
          (Except.error (SPError.keyError ("Configuration not found for " ++ site)), [])) := by
  have hb1 : (site == "") = false := beq_eq_false_iff_ne.mpr h1
  have hb2 : (site == "DEFAULT") = false := beq_eq_false_iff_ne.mpr h2
  constructor
  · simp [builderCall, hb1, check_site_in_config]
  · intro hl
    simp [builderCall, hb1, check_site_in_config, cfgHasSite, hb2, hl]

/-- Witness for C2 (amended) at a concrete unregistered site name. -/
theorem claim_C2_witness :
    builderCall envOK (some cfgDemo) "nope" =
      (Except.error (SPError.keyError "Configuration not found for nope"), []) := by
  have h := (claim_C2 envOK "nope" cfgDemo (by decide) (by decide)).2 rfl
  exact h.trans (by rfl)

/-- Claim C1: a `resolve(site_name)` call constructs a `SharePoint` client
if and only if the OAuth2 exchange it performed answered 200; when the
exchange answered any other status `s` the call raises
`ConnectionRefusedError` carrying `s`; and any client a call returns has
`status_code = 200`. -/
theorem claim_C1 (env : Env) (store : Option ConfigFile) (site : String) :
    ((∃ c, (builderCall env store site).1 = Except.ok (some c)) ↔
      traceExchangeStatus env (builderCall env store site).2 = some 200)
    ∧ (∀ s, traceExchangeStatus env (builderCall env store site).2 = some s →
        s ≠ 200 →
        (builderCall env store site).1 =
          Except.error (SPError.connectionRefusedError s))
    ∧ (∀ c, (builderCall env store site).1 = Except.ok (some c) →
        c.status_code = 200) := by
  by_cases hsite : (site == "") = true
  · refine ⟨?_, ?_, ?_⟩ <;> simp [builderCall, hsite, traceExchangeStatus]
  · have hsite' : (site == "") = false := by simpa using hsite
    cases store with
    | none =>
      refine ⟨?_, ?_, ?_⟩ <;>
        simp [builderCall, hsite', check_site_in_config, traceExchangeStatus]
    | some cfg =>
      by_cases hhas : cfgHasSite cfg site = true
      · cases hcfg : get_configs cfg site with
        | error e =>
          refine ⟨?_, ?_, ?_⟩ <;>
            simp [builderCall, hsite', check_site_in_config, hhas, authorize, hcfg,
              traceExchangeStatus]
        | ok c =>
          by_cases hst :
              ((env.tokenExchange c.TENANT_ID c.CLIENT_ID c.CLIENT_SECRET c.DOMAIN).1
                == 200) = true
          · have hst' :
                (env.tokenExchange c.TENANT_ID c.CLIENT_ID c.CLIENT_SECRET c.DOMAIN).1
                  = 200 := by simpa using hst
            refine ⟨?_, ?_, ?_⟩
            · simp [builderCall, hsite', check_site_in_config, hhas, authorize, hcfg,
                hst, traceExchangeStatus, List.findSome?, hst']
            · intro s hs hne
              exfalso
              apply hne
              have h200 : (200 : Nat) = s := by
                simpa [builderCall, hsite', check_site_in_config, hhas, authorize,
                  hcfg, hst, traceExchangeStatus, List.findSome?, hst'] using hs
              exact h200.symm
            · intro c' hc'
              have : SharePoint.init site
                  { status_code :=
                      (env.tokenExchange c.TENANT_ID c.CLIENT_ID c.CLIENT_SECRET
                        c.DOMAIN).1
                    token :=
                      (env.tokenExchange c.TENANT_ID c.CLIENT_ID c.CLIENT_SECRET
                        c.DOMAIN).2
                    domain := c.DOMAIN } = c' := by
                simpa [builderCall, hsite', check_site_in_config, hhas, authorize,
                  hcfg, hst] using hc'
              rw [← this]
              simp [SharePoint.init, hst']
          · have hst' :
                ((env.tokenExchange c.TENANT_ID c.CLIENT_ID c.CLIENT_SECRET
                  c.DOMAIN).1 == 200) = false := by simpa using hst
            have hne :
                (env.tokenExchange c.TENANT_ID c.CLIENT_ID c.CLIENT_SECRET
                  c.DOMAIN).1 ≠ 200 := by
              intro habs
              rw [habs] at hst'
              simp at hst'
            refine ⟨?_, ?_, ?_⟩
            · simp [builderCall, hsite', check_site_in_config, hhas, authorize, hcfg,
                hst', traceExchangeStatus, List.findSome?, hne]
            · intro s hs hsne
              have hs' :
                  s = (env.tokenExchange c.TENANT_ID c.CLIENT_ID c.CLIENT_SECRET
                    c.DOMAIN).1 := by
                have := hs
                simp [builderCall, hsite', check_site_in_config, hhas, authorize,
                  hcfg, hst', traceExchangeStatus, List.findSome?] at this
                exact this.symm
              subst hs'
              simp [builderCall, hsite', check_site_in_config, hhas, authorize, hcfg,
                hst']
            · intro c' hc'
              exfalso
              simp [builderCall, hsite', check_site_in_config, hhas, authorize, hcfg,
                hst'] at hc'
      · have hhas' : cfgHasSite cfg site = false := by simpa using hhas
        refine ⟨?_, ?_, ?_⟩ <;>
          simp [builderCall, hsite', check_site_in_config, hhas', traceExchangeStatus]

/-- Witness for C1 at a concrete failing exchange: a 500 from the token
endpoint raises `ConnectionRefusedError 500`. -/
theorem claim_C1_witness :
    (builderCall env500 (some cfgDemo) "site_1").1 =
      Except.error (SPError.connectionRefusedError 500) :=
  (claim_C1 env500 (some cfgDemo) "site_1").2.1 500 rfl (by decide)
